import Mathlib

/-!
Shallow embedding of the fire-risk rule engine in `src/app.py`
(functions `cargar_reglas`, `evaluar_condicion`, `inferir_riesgo`).

Modelling choices:
* Python floats are modelled as rationals (`ℚ`); the five comparison
  operators used by the engine agree with the rational order on the
  numeric values the program handles.
* The input mapping `datos_entrada` is a dictionary that may lack any of
  the keys `temperatura`, `humedad`, `viento`; it is modelled as a record
  of three `Option ℚ` fields (`datos_entrada.get(k, 0)` becomes
  `Option.getD _ 0`).
* The dictionary `hechos` built inside `inferir_riesgo` is modelled as a
  total lookup function `String → Option ℚ` that is `some _` exactly on
  the three keys the dict literal contains.
* The global list `REGLAS` becomes an explicit argument of the engine
  (state passing).
* Rules as parsed from JSON are dictionaries that may lack keys; the
  type `ReglaJson` with `Option` fields models that raw form, and
  `Regla` models a well-formed rule (all five keys present).  Lookups of
  possibly missing keys in the raw form live in `Except String`, where
  `Except.error` models a Python `KeyError`.
-/

/-- One entry of a rule condition mapping: `{"operador": ..., "valor": ...}`
(`src/app.py`, consumed at lines 56-58). -/
structure Condicion where
  operador : String
  valor : ℚ
deriving DecidableEq, Repr

/-- A well-formed rule: a JSON object with all five keys present
(`src/app.py` lines 53-66 access `condiciones`, `resultado`, `accion`,
`id`, `nombre`).  The condition mapping is a list of (variable, condition)
pairs, in iteration order of the Python dict. -/
structure Regla where
  id : String
  nombre : String
  condiciones : List (String × Condicion)
  resultado : String
  accion : String
deriving DecidableEq, Repr

/-- A raw rule as loaded from JSON: any of the five keys may be absent
(Python dicts carry no schema, and `cargar_reglas` validates nothing). -/
structure ReglaJson where
  id : Option String
  nombre : Option String
  condiciones : Option (List (String × Condicion))
  resultado : Option String
  accion : Option String
deriving DecidableEq, Repr

/-- View of a well-formed rule as a raw JSON rule (every key present). -/
def Regla.toRaw (r : Regla) : ReglaJson :=
  { id := some r.id, nombre := some r.nombre, condiciones := some r.condiciones,
    resultado := some r.resultado, accion := some r.accion }

/-- The outcome dictionary returned by `inferir_riesgo`
(`src/app.py` lines 63-67 and 71-75): keys `nivel`, `accion`,
`justificacion`. -/
structure Salida where
  nivel : String
  accion : String
  justificacion : String
deriving DecidableEq, Repr

/-- The input mapping `datos_entrada` passed to `inferir_riesgo`: a
dictionary in which each of the three keys may be absent
(`src/app.py` lines 44-48 read it with `.get(k, 0)`). -/
structure Entrada where
  temperatura : Option ℚ
  humedad : Option ℚ
  viento : Option ℚ
deriving DecidableEq, Repr

/-- `evaluar_condicion` (`src/app.py` lines 26-38): a five-way chain of
string comparisons on the operator, falling through to `False` for any
other operator string. -/
def evaluar_condicion (valor_hecho : ℚ) (operador : String) (valor_regla : ℚ) : Bool :=
  if operador = ">=" then decide (valor_hecho ≥ valor_regla)
  else if operador = ">" then decide (valor_hecho > valor_regla)
  else if operador = "<=" then decide (valor_hecho ≤ valor_regla)
  else if operador = "<" then decide (valor_hecho < valor_regla)
  else if operador = "==" then decide (valor_hecho = valor_regla)
  else false

/-- The dict literal `hechos` built at `src/app.py` lines 44-48: exactly
the three keys, each the input value defaulted to 0 when the key is
absent.  Returns `none` on every other key, which is what the membership
test `variable in hechos` at line 57 observes. -/
def hechosDe (datos_entrada : Entrada) : String → Option ℚ := fun k =>
  if k = "temperatura" then some (datos_entrada.temperatura.getD 0)
  else if k = "humedad" then some (datos_entrada.humedad.getD 0)
  else if k = "viento" then some (datos_entrada.viento.getD 0)
  else none

/-- The counting loop at `src/app.py` lines 52-59: walk the condition
mapping, and for each condition whose variable is a key of `hechos`,
add 1 when `evaluar_condicion` holds; conditions on unknown variables
are skipped (never counted, never forced-true). -/
def condiciones_cumplidas (hechos : String → Option ℚ) :
    List (String × Condicion) → Nat
  | [] => 0
  | (nombreVar, condicion) :: resto =>
    (match hechos nombreVar with
     | some valor =>
       if evaluar_condicion valor condicion.operador condicion.valor then 1 else 0
     | none => 0) + condiciones_cumplidas hechos resto

/-- The match test at `src/app.py` line 61 applied to a condition
mapping: `condiciones_cumplidas == total_condiciones`, where
`total_condiciones = len(regla['condiciones'])` (line 53) is the number
of conditions declared, not the number evaluated. -/
def coincideConds (hechos : String → Option ℚ) (conds : List (String × Condicion)) : Bool :=
  condiciones_cumplidas hechos conds == conds.length

/-- The match test at `src/app.py` line 61 for a whole rule. -/
def coincide (hechos : String → Option ℚ) (regla : Regla) : Bool :=
  coincideConds hechos regla.condiciones

/-- The dictionary returned at `src/app.py` lines 63-67 when a rule
fires, justification string included. -/
def salidaDeRegla (regla : Regla) : Salida :=
  { nivel := regla.resultado,
    accion := regla.accion,
    justificacion :=
      "Se activó la regla ID " ++ regla.id ++ ": " ++ regla.nombre ++ "." }

/-- The default dictionary returned at `src/app.py` lines 71-75 when no
rule fully matched. -/
def salidaPorDefecto : Salida :=
  { nivel := "NO CLASIFICADO",
    accion := "El nivel de riesgo no se ajusta a las reglas existentes. Mantener monitoreo.",
    justificacion := "Ninguna regla de la Base de Conocimiento cumplió todas las condiciones." }

/-- The rule loop of `src/app.py` lines 51-67: scan the rules in stored
order, return the first full match, fall through to the default. -/
def inferir_lista (hechos : String → Option ℚ) : List Regla → Salida
  | [] => salidaPorDefecto
  | regla :: resto =>
    if coincide hechos regla then salidaDeRegla regla
    else inferir_lista hechos resto

/-- `inferir_riesgo` (`src/app.py` lines 40-75) over well-formed rules:
build `hechos` from the input, then scan the rules. -/
def inferir_riesgo (reglas : List Regla) (datos_entrada : Entrada) : Salida :=
  inferir_lista (hechosDe datos_entrada) reglas

/-- The rule loop of `src/app.py` lines 51-67 over raw JSON rules, with
the key lookups `regla['condiciones']`, `regla['resultado']`,
`regla['accion']`, `regla['id']`, `regla['nombre']` made explicit: a
missing key is a Python `KeyError`, modelled as `Except.error`. -/
def inferir_listaRaw (hechos : String → Option ℚ) :
    List ReglaJson → Except String Salida
  | [] => Except.ok salidaPorDefecto
  | regla :: resto =>
    match regla.condiciones with
    | none => Except.error "KeyError"
    | some conds =>
      if coincideConds hechos conds then
        match regla.resultado, regla.accion, regla.id, regla.nombre with
        | some resultado, some accion, some i, some nombre =>
          Except.ok
            { nivel := resultado, accion := accion,
              justificacion := "Se activó la regla ID " ++ i ++ ": " ++ nombre ++ "." }
        | _, _, _, _ => Except.error "KeyError"
      else inferir_listaRaw hechos resto

/-- `inferir_riesgo` over raw JSON rules (tracking where the Python code
could raise a `KeyError` on a malformed rule). -/
def inferir_riesgoRaw (reglas : List ReglaJson) (datos_entrada : Entrada) :
    Except String Salida :=
  inferir_listaRaw (hechosDe datos_entrada) reglas

/-- `cargar_reglas` (`src/app.py` lines 16-24).  The file system is
modelled as an `Option`: `none` is a missing `reglas_incendios.json`
(Python `FileNotFoundError`), `some reglas` is a readable file that
parses to the given rule list.  The result pairs the loaded rule list
with the diagnostic message printed on the missing-file path (`none`
when nothing is printed).  The parsed content is stored as is: the
function performs no validation of rule content. -/
def cargar_reglas (source : Option (List ReglaJson)) :
    List ReglaJson × Option String :=
  match source with
  | some reglas => (reglas, none)
  | none => ([], some "Error: El archivo reglas_incendios.json no fue encontrado.")

/-! ## Helper lemmas -/

/-- The satisfied-condition count never exceeds the declared total. -/
theorem condiciones_cumplidas_le (hechos : String → Option ℚ)
    (conds : List (String × Condicion)) :
    condiciones_cumplidas hechos conds ≤ conds.length := by
  induction conds with
  | nil => simp [condiciones_cumplidas]
  | cons p resto ih =>
    obtain ⟨v, c⟩ := p
    simp only [condiciones_cumplidas, List.length_cons]
    cases hv : hechos v with
    | none => simpa using Nat.le_succ_of_le ih
    | some valor =>
      cases he : evaluar_condicion valor c.operador c.valor <;> simp [he] <;> omega

/-- A condition whose variable is not a key of `hechos` is never counted,
so the count stays strictly below the declared total. -/
theorem condiciones_cumplidas_lt (hechos : String → Option ℚ)
    (conds : List (String × Condicion))
    (h : ∃ p ∈ conds, hechos p.1 = none) :
    condiciones_cumplidas hechos conds < conds.length := by
  induction conds with
  | nil => simp at h
  | cons p resto ih =>
    obtain ⟨v, c⟩ := p
    simp only [condiciones_cumplidas, List.length_cons]
    rcases h with ⟨q, hq, hqnone⟩
    rcases List.mem_cons.mp hq with hq0 | hqresto
    · subst hq0
      simp only at hqnone
      rw [hqnone]
      have hle := condiciones_cumplidas_le hechos resto
      simpa using Nat.lt_succ_of_le hle
    · have hlt := ih ⟨q, hqresto, hqnone⟩
      cases hv : hechos v with
      | none => simpa using Nat.lt_succ_of_lt hlt
      | some valor =>
        cases he : evaluar_condicion valor c.operador c.valor <;> simp [he] <;> omega

/-- The Boolean match test holds exactly when the count equals the
declared total. -/
theorem coincideConds_iff (hechos : String → Option ℚ)
    (conds : List (String × Condicion)) :
    coincideConds hechos conds = true ↔
      condiciones_cumplidas hechos conds = conds.length := by
  simp [coincideConds]

/-- A lookup in `hechos` on any key other than the three fact names
gives `none`. -/
theorem hechosDe_none (e : Entrada) (k : String)
    (h1 : k ≠ "temperatura") (h2 : k ≠ "humedad") (h3 : k ≠ "viento") :
    hechosDe e k = none := by
  simp [hechosDe, h1, h2, h3]

/-- The scan returns exactly the outcome of the first matching rule, and
the default when none matches. -/
theorem inferir_lista_eq_find (hechos : String → Option ℚ) (reglas : List Regla) :
    inferir_lista hechos reglas =
      (match reglas.find? (coincide hechos) with
       | some r => salidaDeRegla r
       | none => salidaPorDefecto) := by
  induction reglas with
  | nil => rfl
  | cons regla resto ih =>
    cases hc : coincide hechos regla with
    | true => simp [inferir_lista, hc, List.find?_cons_of_pos _ hc]
    | false =>
      have hneg : ¬ coincide hechos regla = true := by simp [hc]
      simp [inferir_lista, hc, List.find?_cons_of_neg _ hneg, ih]

/-! ## Concrete values used by witnesses and counterexamples -/

/-- A rule whose first condition references a variable (`presion`) that
is not a key of the fact dictionary. -/
def reglaDesconocida : Regla :=
  { id := "RX", nombre := "Regla con variable desconocida",
    condiciones := [("presion", { operador := ">=", valor := 1 }),
                    ("temperatura", { operador := ">=", valor := 0 })],
    resultado := "X", accion := "accion X" }

/-- A sample input supplying the three readings. -/
def entradaEjemplo : Entrada :=
  { temperatura := some 40, humedad := some 10, viento := some 5 }

/-! ## Claims -/

/-- C1: a rule matches iff its satisfied-condition count equals the
number of conditions declared in its mapping, and a rule with a
condition on a variable absent from the fact dictionary never matches:
that condition is skipped by the counting loop (never counted, never
forced-true), so the count stays below the declared total and the rule
is stepped over by the scan. -/
theorem regla_con_variable_desconocida_nunca_coincide (e : Entrada) (r : Regla)
    (h : ∃ p ∈ r.condiciones,
      p.1 ≠ "temperatura" ∧ p.1 ≠ "humedad" ∧ p.1 ≠ "viento") :
    (∀ r2 : Regla, coincide (hechosDe e) r2 = true ↔
      condiciones_cumplidas (hechosDe e) r2.condiciones = r2.condiciones.length) ∧
    coincide (hechosDe e) r = false ∧
    ∀ resto : List Regla, inferir_riesgo (r :: resto) e = inferir_riesgo resto e := by
  have hlt : condiciones_cumplidas (hechosDe e) r.condiciones < r.condiciones.length := by
    apply condiciones_cumplidas_lt
    rcases h with ⟨p, hp, h1, h2, h3⟩
    exact ⟨p, hp, hechosDe_none e p.1 h1 h2 h3⟩
  have hfalse : coincide (hechosDe e) r = false := by
    simp only [coincide, coincideConds, beq_eq_false_iff_ne, ne_eq]
    omega
  refine ⟨fun r2 => coincideConds_iff _ _, hfalse, fun resto => ?_⟩
  simp [inferir_riesgo, inferir_lista, hfalse]

/-- Witness for C1 at a concrete rule and input. -/
theorem regla_con_variable_desconocida_nunca_coincide_witness :
    (∃ p ∈ reglaDesconocida.condiciones,
      p.1 ≠ "temperatura" ∧ p.1 ≠ "humedad" ∧ p.1 ≠ "viento") ∧
    coincide (hechosDe entradaEjemplo) reglaDesconocida = false ∧
    inferir_riesgo [reglaDesconocida] entradaEjemplo = salidaPorDefecto :=
  ⟨by decide,
   (regla_con_variable_desconocida_nunca_coincide entradaEjemplo reglaDesconocida
      (by decide)).2.1,
   ((regla_con_variable_desconocida_nunca_coincide entradaEjemplo reglaDesconocida
      (by decide)).2.2 []).trans rfl⟩

/-- C4: against an empty rule set, every input yields the default
outcome. -/
theorem conjunto_de_reglas_vacio_da_salida_por_defecto (e : Entrada) :
    inferir_riesgo [] e = salidaPorDefecto := rfl

/-- C7: any operator string outside the five comparison operators makes
the condition evaluate to false (the final fall-through of
`evaluar_condicion`), never an error. -/
theorem operador_desconocido_da_false (valor_hecho valor_regla : ℚ) (operador : String)
    (h : operador ∉ ([">=", ">", "<=", "<", "=="] : List String)) :
    evaluar_condicion valor_hecho operador valor_regla = false := by
  simp only [List.mem_cons, List.not_mem_nil, or_false, not_or] at h
  obtain ⟨h1, h2, h3, h4, h5⟩ := h
  simp [evaluar_condicion, h1, h2, h3, h4, h5]

/-- Witness for C7 at a concrete unknown operator. -/
theorem operador_desconocido_da_false_witness :
    ("!=" ∉ ([">=", ">", "<=", "<", "=="] : List String)) ∧
    evaluar_condicion 5 "!=" 5 = false :=
  ⟨by decide, operador_desconocido_da_false 5 5 "!=" (by decide)⟩

/-- C8: a fact key absent from the input dictionary is read as 0 by the
engine (`datos_entrada.get(k, 0)`), so evaluation with the key missing
equals evaluation with the key set to 0, for each of the three keys. -/
theorem hecho_ausente_se_trata_como_cero (reglas : List Regla) (t h v : Option ℚ) :
    inferir_riesgo reglas { temperatura := none, humedad := h, viento := v } =
      inferir_riesgo reglas { temperatura := some 0, humedad := h, viento := v } ∧
    inferir_riesgo reglas { temperatura := t, humedad := none, viento := v } =
      inferir_riesgo reglas { temperatura := t, humedad := some 0, viento := v } ∧
    inferir_riesgo reglas { temperatura := t, humedad := h, viento := none } =
      inferir_riesgo reglas { temperatura := t, humedad := h, viento := some 0 } :=
  ⟨rfl, rfl, rfl⟩

/-- A rule that does not match `entradaEjemplo` (temperature 40 is below
its threshold 100). -/
def reglaNoCoincidente : Regla :=
  { id := "R0", nombre := "No coincide",
    condiciones := [("temperatura", { operador := ">=", valor := 100 })],
    resultado := "N", accion := "accion N" }

/-- A rule matching `entradaEjemplo`, placed before `reglaSegunda`. -/
def reglaPrimera : Regla :=
  { id := "R1", nombre := "Primera",
    condiciones := [("temperatura", { operador := ">=", valor := 30 })],
    resultado := "ALTO", accion := "accion 1" }

/-- A second rule that also matches `entradaEjemplo`. -/
def reglaSegunda : Regla :=
  { id := "R2", nombre := "Segunda",
    condiciones := [("temperatura", { operador := ">", valor := 0 })],
    resultado := "BAJO", accion := "accion 2" }

/-- A rule with an empty condition mapping. -/
def reglaVacia : Regla :=
  { id := "RV", nombre := "Sin condiciones", condiciones := [],
    resultado := "SIEMPRE", accion := "accion V" }

/-- A raw rule missing the keys `resultado` and `accion` and declaring
an empty condition mapping. -/
def reglaMalformada : ReglaJson :=
  { id := none, nombre := none, condiciones := some [],
    resultado := none, accion := none }

/-- C2: the scan visits the rules in stored order and returns on the
first full match, so when two rules both fully match, the outcome is the
one of the rule with the lower stored index and no rule after it is
reached. -/
theorem primera_regla_coincidente_gana (e : Entrada) (pre mid post : List Regla)
    (ri rj : Regla)
    (hpre : ∀ r ∈ pre, coincide (hechosDe e) r = false)
    (hri : coincide (hechosDe e) ri = true)
    (_hrj : coincide (hechosDe e) rj = true) :
    inferir_riesgo (pre ++ ri :: mid ++ rj :: post) e = salidaDeRegla ri := by
  induction pre with
  | nil => simp [inferir_riesgo, inferir_lista, hri]
  | cons a pre' ih =>
    have ha : coincide (hechosDe e) a = false := hpre a (List.mem_cons_self a pre')
    have ih' := ih fun r hr => hpre r (List.mem_cons_of_mem a hr)
    rw [inferir_riesgo] at ih' ⊢
    rw [List.cons_append]
    simpa [inferir_lista, ha] using ih'

/-- Witness for C2: with `reglaPrimera` and `reglaSegunda` both matching
and stored in that order, the outcome is the one of `reglaPrimera`. -/
theorem primera_regla_coincidente_gana_witness :
    (∀ r ∈ [reglaNoCoincidente], coincide (hechosDe entradaEjemplo) r = false) ∧
    coincide (hechosDe entradaEjemplo) reglaPrimera = true ∧
    coincide (hechosDe entradaEjemplo) reglaSegunda = true ∧
    inferir_riesgo [reglaNoCoincidente, reglaPrimera, reglaSegunda] entradaEjemplo =
      salidaDeRegla reglaPrimera :=
  ⟨by decide, by decide, by decide,
   primera_regla_coincidente_gana entradaEjemplo [reglaNoCoincidente] [] []
     reglaPrimera reglaSegunda (by decide) (by decide) (by decide)⟩

/-- C3 (amended): the returned level is one of the declared `resultado`
values or exactly the default string `NO CLASIFICADO`; the result is the
outcome of the first matching rule when one exists and otherwise the
fixed default outcome.  (The claim as frozen names the default level
`UNCLASSIFIED`; the code returns `NO CLASIFICADO`.) -/
theorem nivel_es_resultado_declarado_o_no_clasificado (reglas : List Regla) (e : Entrada) :
    ((inferir_riesgo reglas e).nivel = "NO CLASIFICADO" ∨
      ∃ r, r ∈ reglas ∧ (inferir_riesgo reglas e).nivel = r.resultado) ∧
    inferir_riesgo reglas e =
      (match reglas.find? (coincide (hechosDe e)) with
       | some r => salidaDeRegla r
       | none => salidaPorDefecto) ∧
    salidaPorDefecto.nivel = "NO CLASIFICADO" := by
  refine ⟨?_, inferir_lista_eq_find _ _, rfl⟩
  cases hf : reglas.find? (coincide (hechosDe e)) with
  | none =>
    left
    rw [inferir_riesgo, inferir_lista_eq_find, hf]
    rfl
  | some r =>
    right
    refine ⟨r, List.mem_of_find?_eq_some hf, ?_⟩
    rw [inferir_riesgo, inferir_lista_eq_find, hf]
    rfl

/-- C3 counterexample: on the empty rule set (which declares no result
values) the returned level is the literal `NO CLASIFICADO`, not the
string `UNCLASSIFIED` stated by the claim. -/
theorem nivel_por_defecto_no_es_unclassified :
    (inferir_riesgo [] { temperatura := none, humedad := none, viento := none }).nivel
      = "NO CLASIFICADO" ∧
    (inferir_riesgo [] { temperatura := none, humedad := none, viento := none }).nivel
      ≠ "UNCLASSIFIED" ∧
    ∀ r : Regla, r ∉ ([] : List Regla) :=
  ⟨rfl, by decide, fun r => List.not_mem_nil r⟩

/-- C5: when the rule file is missing, loading recovers with the empty
rule list and a printed diagnostic instead of an exception, and every
evaluation against the resulting empty knowledge base returns the
default outcome. -/
theorem carga_fallida_recuperable_y_defecto :
    (cargar_reglas none).1 = [] ∧
    (cargar_reglas none).2 =
      some "Error: El archivo reglas_incendios.json no fue encontrado." ∧
    ∀ e : Entrada, inferir_riesgoRaw (cargar_reglas none).1 e = Except.ok salidaPorDefecto :=
  ⟨rfl, rfl, fun _ => rfl⟩

/-- C6 (amended): `cargar_reglas` performs no validation of rule
content; any parsed rule list, malformed rules included, is accepted
whole, with no error and no diagnostic. -/
theorem carga_no_valida_reglas (reglas : List ReglaJson) :
    cargar_reglas (some reglas) = (reglas, none) := rfl

/-- C6 counterexample: a rule missing its `resultado` and `accion` keys
is accepted by the load untouched, with no error and no diagnostic; the
missing key only surfaces later, as a `KeyError` when the engine
evaluates the rule. -/
theorem carga_acepta_regla_malformada :
    (reglaMalformada.condiciones = some [] ∧ reglaMalformada.resultado = none ∧
      reglaMalformada.accion = none) ∧
    cargar_reglas (some [reglaMalformada]) = ([reglaMalformada], none) ∧
    inferir_riesgoRaw [reglaMalformada]
        { temperatura := none, humedad := none, viento := none } =
      Except.error "KeyError" :=
  ⟨⟨rfl, rfl, rfl⟩, rfl, rfl⟩

/-- C9: on well-formed rules (all five keys present, operator strings,
variables and thresholds arbitrary) and any input, the engine never
reaches an error: the raw engine, which tracks every place the Python
code could raise a `KeyError`, returns `Except.ok` of the pure result. -/
theorem motor_total_sin_excepciones (reglas : List Regla) (e : Entrada) :
    inferir_riesgoRaw (reglas.map Regla.toRaw) e =
      Except.ok (inferir_riesgo reglas e) := by
  simp only [inferir_riesgoRaw, inferir_riesgo]
  induction reglas with
  | nil => rfl
  | cons r resto ih =>
    cases hc : coincideConds (hechosDe e) r.condiciones with
    | true =>
      simp [inferir_listaRaw, inferir_lista, Regla.toRaw, coincide, hc, salidaDeRegla]
    | false =>
      simp [inferir_listaRaw, inferir_lista, Regla.toRaw, coincide, hc, ih]

/-- C10 (amended): a rule with an empty condition mapping fully matches
every fact set (0 declared, 0 satisfied); when such a rule is present,
the engine always fires some rule stored at or before the first such
rule, so no later rule and no default outcome is ever reached — but the
empty rule itself fires only when no earlier rule matches. -/
theorem regla_sin_condiciones_bloquea_defecto (e : Entrada) (pre post : List Regla)
    (r0 : Regla) (h0 : r0.condiciones = []) :
    coincide (hechosDe e) r0 = true ∧
    ∃ r, (r ∈ pre ∨ r = r0) ∧ coincide (hechosDe e) r = true ∧
      inferir_riesgo (pre ++ r0 :: post) e = salidaDeRegla r := by
  have hc0 : coincide (hechosDe e) r0 = true := by
    simp [coincide, coincideConds, h0, condiciones_cumplidas]
  refine ⟨hc0, ?_⟩
  induction pre with
  | nil => exact ⟨r0, Or.inr rfl, hc0, by simp [inferir_riesgo, inferir_lista, hc0]⟩
  | cons a pre' ih =>
    cases ha : coincide (hechosDe e) a with
    | true =>
      refine ⟨a, Or.inl (List.mem_cons_self a pre'), ha, ?_⟩
      rw [inferir_riesgo, List.cons_append]
      simp [inferir_lista, ha]
    | false =>
      obtain ⟨r, hr, hcr, heq⟩ := ih
      refine ⟨r, ?_, hcr, ?_⟩
      · rcases hr with h | h
        · exact Or.inl (List.mem_cons_of_mem a h)
        · exact Or.inr h
      · rw [inferir_riesgo, List.cons_append]
        simpa [inferir_lista, ha] using heq

/-- Witness for the amended C10 at a concrete rule list. -/
theorem regla_sin_condiciones_bloquea_defecto_witness :
    reglaVacia.condiciones = [] ∧
    coincide (hechosDe entradaEjemplo) reglaVacia = true ∧
    ∃ r, (r ∈ [reglaNoCoincidente] ∨ r = reglaVacia) ∧
      coincide (hechosDe entradaEjemplo) r = true ∧
      inferir_riesgo ([reglaNoCoincidente] ++ reglaVacia :: [reglaSegunda])
          entradaEjemplo = salidaDeRegla r :=
  ⟨rfl,
   (regla_sin_condiciones_bloquea_defecto entradaEjemplo [reglaNoCoincidente]
      [reglaSegunda] reglaVacia rfl).1,
   (regla_sin_condiciones_bloquea_defecto entradaEjemplo [reglaNoCoincidente]
      [reglaSegunda] reglaVacia rfl).2⟩

/-- C10 counterexample: with a matching rule stored before the rule with
the empty condition mapping, the earlier rule fires, so the first
empty-mapping rule does not fire for every possible input. -/
theorem primera_regla_vacia_no_siempre_dispara :
    reglaVacia.condiciones = [] ∧
    reglaPrimera.condiciones ≠ [] ∧
    inferir_riesgo [reglaPrimera, reglaVacia] entradaEjemplo = salidaDeRegla reglaPrimera ∧
    salidaDeRegla reglaPrimera ≠ salidaDeRegla reglaVacia :=
  ⟨rfl, by decide, by decide, by decide⟩
